import Mathlib

/-!
Verification of the ComfyUI watermark node (`WatermarkNode` in `__init__.py`).

The Python source is shallowly embedded below:
* machine integers become `ℤ`/`ℕ`,
* Python floats (the `opacity` and `scale` parameters and the float image
  buffers) become `ℚ` with exact arithmetic,
* Python `int(x)` (truncation toward zero) becomes `pyInt`,
* Python floor division `//` becomes `Int.fdiv`,
* the fallible steps of `apply_watermark` (missing watermark file, watermark
  file that does not decode, an empty input batch, a resize to a non-positive
  size) become an `Option`-valued core `applyWatermarkCore`, and the
  `try/except` boundary becomes the total wrapper `apply_watermark` that
  returns the original input tensor on `none`,
* the external PIL calls are modelled band for band: `resize` produces an
  image of exactly the requested size (the LANCZOS kernel is abstracted by
  nearest-neighbour sampling, on which no claim depends), `paste` with an
  RGBA mask blends every band by mask over 255, and `alpha_composite` is the
  per-band over blend stated in section 4.6 of the design, with floor
  division on byte values as the quantization model.
-/

namespace WatermarkNode

/-- Python `int(q)`: truncation toward zero of a rational (the numerator
divided by the positive denominator with truncating integer division). -/
def pyInt (q : ℚ) : ℤ :=
  Int.tdiv q.num (q.den : ℤ)

/-- The anchor dictionary built by `_calculate_position` (the `positions`
dict in the source, entry for entry; `//` is `Int.fdiv`). -/
def positionsTable (base_width base_height wm_width wm_height margin_x margin_y : ℤ) :
    List (String × (ℤ × ℤ)) :=
  [("top_left", (margin_x, margin_y)),
   ("top_center", (Int.fdiv (base_width - wm_width) 2, margin_y)),
   ("top_right", (base_width - wm_width - margin_x, margin_y)),
   ("center_left", (margin_x, Int.fdiv (base_height - wm_height) 2)),
   ("center", (Int.fdiv (base_width - wm_width) 2, Int.fdiv (base_height - wm_height) 2)),
   ("center_right", (base_width - wm_width - margin_x, Int.fdiv (base_height - wm_height) 2)),
   ("bottom_left", (margin_x, base_height - wm_height - margin_y)),
   ("bottom_center", (Int.fdiv (base_width - wm_width) 2, base_height - wm_height - margin_y)),
   ("bottom_right", (base_width - wm_width - margin_x, base_height - wm_height - margin_y))]

/-- `WatermarkNode._calculate_position`: look the anchor name up in the
`positions` dict, defaulting to the `bottom_right` entry
(`positions.get(position, positions["bottom_right"])`), then add the offsets. -/
def calculate_position (base_width base_height wm_width wm_height : ℤ)
    (position : String) (margin_x margin_y offset_x offset_y : ℤ) : ℤ × ℤ :=
  let positions := positionsTable base_width base_height wm_width wm_height margin_x margin_y
  let bp := (positions.lookup position).getD
    (base_width - wm_width - margin_x, base_height - wm_height - margin_y)
  (bp.1 + offset_x, bp.2 + offset_y)

/-- The anchor table exactly as the specification states it (section 4.4),
with the fallback to `bottom_right` for unknown anchor names. -/
def anchorBaseSpec (W H w h mx my : ℤ) (anchor : String) : ℤ × ℤ :=
  if anchor = "top_left" then (mx, my)
  else if anchor = "top_center" then (Int.fdiv (W - w) 2, my)
  else if anchor = "top_right" then (W - w - mx, my)
  else if anchor = "center_left" then (mx, Int.fdiv (H - h) 2)
  else if anchor = "center" then (Int.fdiv (W - w) 2, Int.fdiv (H - h) 2)
  else if anchor = "center_right" then (W - w - mx, Int.fdiv (H - h) 2)
  else if anchor = "bottom_left" then (mx, H - h - my)
  else if anchor = "bottom_center" then (Int.fdiv (W - w) 2, H - h - my)
  else (W - w - mx, H - h - my)

/-- `WatermarkNode._ensure_watermark_fits`: per-axis clamp of the candidate
position. -/
def ensure_watermark_fits (base_width base_height wm_width wm_height pos_x pos_y : ℤ) :
    ℤ × ℤ :=
  let px := if pos_x < 0 then 0
    else if pos_x + wm_width > base_width then base_width - wm_width
    else pos_x
  let py := if pos_y < 0 then 0
    else if pos_y + wm_height > base_height then base_height - wm_height
    else pos_y
  (px, py)

/-- The one-axis clamp rule exactly as the specification states it
(section 4.5). -/
def clampAxisSpec (limit size coord : ℤ) : ℤ :=
  if coord < 0 then 0
  else if coord + size > limit then limit - size
  else coord

/-- `watermark_size = int(min_dimension * scale)` from `apply_watermark`
(the target long edge of the resized watermark). -/
def watermark_size (base_width base_height : ℕ) (scale : ℚ) : ℤ :=
  pyInt (((min base_width base_height : ℕ) : ℚ) * scale)

/-- The resize target `(new_width, new_height)` computed by `apply_watermark`
(lines 71 to 83 of the source): the aspect value is width over height, the
branch condition is the strict comparison `width > height`, and each computed
edge is truncated with `int`. -/
def resize_size (base_width base_height : ℕ) (scale : ℚ) (wm_width wm_height : ℕ) :
    ℤ × ℤ :=
  let ws : ℤ := watermark_size base_width base_height scale
  let aspect : ℚ := (wm_width : ℚ) / (wm_height : ℚ)
  if wm_width > wm_height then
    (ws, pyInt ((ws : ℚ) / aspect))
  else
    (pyInt ((ws : ℚ) * aspect), ws)

/-- The resize target exactly as the specification words it (section 4.3):
`round` for the long edge and for the derived edge, and the long edge is the
width whenever `width ≥ height`. -/
def resize_size_spec (base_width base_height : ℕ) (scale : ℚ) (wm_width wm_height : ℕ) :
    ℤ × ℤ :=
  let L : ℤ := round (((min base_width base_height : ℕ) : ℚ) * scale)
  let aspect : ℚ := (wm_width : ℚ) / (wm_height : ℚ)
  if wm_width ≥ wm_height then
    (L, round ((L : ℚ) / aspect))
  else
    (round ((L : ℚ) * aspect), L)

/-- The specification resize target amended: `round` replaced by Python
`int` truncation, which is what the source computes. -/
def resize_size_spec_trunc (base_width base_height : ℕ) (scale : ℚ) (wm_width wm_height : ℕ) :
    ℤ × ℤ :=
  let L : ℤ := watermark_size base_width base_height scale
  let aspect : ℚ := (wm_width : ℚ) / (wm_height : ℚ)
  if wm_width ≥ wm_height then
    (L, pyInt ((L : ℚ) / aspect))
  else
    (pyInt ((L : ℚ) * aspect), L)

/-- An 8-bit RGBA pixel (byte values). -/
structure Pixel where
  r : ℕ
  g : ℕ
  b : ℕ
  a : ℕ
deriving DecidableEq

/-- A decoded PIL-style image: size, mode (3 = RGB, 4 = RGBA) and row-major
pixels. The alpha band of an RGB image is carried as 255, which is exactly
what the later RGBA conversion synthesizes; mode 3 means the band is dropped
on encode. -/
structure PImage where
  width : ℕ
  height : ℕ
  mode : ℕ
  px : List Pixel
deriving DecidableEq

/-- A host image buffer: shape and flattened normalized data. -/
structure HostImage where
  height : ℕ
  width : ℕ
  channels : ℕ
  data : List ℚ
deriving DecidableEq

/-- The host tensor: a batch of images. -/
structure Tensor where
  batch : List HostImage
deriving DecidableEq

/-- The watermark file on disk at call time: absent, present but not
decodable as an image, or decodable to a (4-channel) image. -/
inductive WatermarkFile where
  | missing : WatermarkFile
  | undecodable : WatermarkFile
  | decodable : PImage → WatermarkFile
deriving DecidableEq

/-- The node parameters besides the image and the watermark path. -/
structure Params where
  position : String
  opacity : ℚ
  scale : ℚ
  margin_x : ℤ
  margin_y : ℤ
  offset_x : ℤ
  offset_y : ℤ
deriving DecidableEq

/-- `astype(np.uint8)` on a nonnegative float value: truncation to a byte. -/
def toByte (q : ℚ) : ℕ :=
  (pyInt q).toNat

/-- The tensor-to-PIL conversion at the top of `apply_watermark`: take the
flat float data of the first batch element, scale by 255 when every value is
at most 1 (the `max() <= 1.0` check), truncate to bytes, and group into
pixels; a 3-channel buffer decodes to an RGB image. -/
def decodeHostImage (hi : HostImage) : PImage :=
  let bytes := if hi.data.all (fun q => q ≤ 1)
    then hi.data.map (fun q => toByte (q * 255))
    else hi.data.map toByte
  let m := if hi.channels = 3 then 3 else 4
  ⟨hi.width, hi.height, m,
    (List.range (hi.width * hi.height)).map (fun i =>
      if m = 3 then
        ⟨bytes.getD (3 * i) 0, bytes.getD (3 * i + 1) 0, bytes.getD (3 * i + 2) 0, 255⟩
      else
        ⟨bytes.getD (4 * i) 0, bytes.getD (4 * i + 1) 0, bytes.getD (4 * i + 2) 0,
          bytes.getD (4 * i + 3) 0⟩)⟩

/-- `base_image.convert("RGBA")`: mark the image 4-channel (the alpha bands
of an RGB image already carry the synthesized 255). -/
def toRGBA (img : PImage) : PImage :=
  if img.mode = 4 then img else { img with mode := 4 }

/-- `result.convert("RGB")`: drop the alpha band. -/
def toRGB (img : PImage) : PImage :=
  { img with mode := 3 }

/-- A fully transparent black pixel. -/
def transparentPixel : Pixel :=
  ⟨0, 0, 0, 0⟩

/-- The alpha point transform `int(p * opacity)` applied to one pixel: RGB
bands untouched, alpha band truncated. -/
def applyOpacityPixel (opacity : ℚ) (p : Pixel) : Pixel :=
  { p with a := (pyInt ((p.a : ℚ) * opacity)).toNat }

/-- Lines 104 to 110 of `apply_watermark`: when `opacity < 1.0` rebuild the
alpha band through the point transform, otherwise leave the pixels alone. -/
def apply_opacity (opacity : ℚ) (px : List Pixel) : List Pixel :=
  if opacity < 1 then px.map (applyOpacityPixel opacity) else px

/-- The opacity step lifted to an image. -/
def applyOpacityImage (opacity : ℚ) (img : PImage) : PImage :=
  { img with px := apply_opacity opacity img.px }

/-- Models PIL `resize((w, h), LANCZOS)`: the output has exactly the
requested size; pixel content is resampled from the source (nearest
neighbour stands in for the LANCZOS kernel; no claim depends on resampled
pixel values). -/
def resizeImage (img : PImage) (w h : ℕ) : PImage :=
  ⟨w, h, 4,
    (List.range (w * h)).map (fun i =>
      let x := i % w
      let y := i / w
      img.px.getD ((y * img.height / h) * img.width + x * img.width / w)
        transparentPixel)⟩

/-- One-pixel paste with the foreground alpha as the mask (models PIL
`paste(wm, pos, wm)` on one covered pixel): every band is blended by mask
over 255. -/
def pasteMaskPixel (fg bg : Pixel) : Pixel :=
  let m := fg.a
  ⟨(fg.r * m + bg.r * (255 - m)) / 255,
   (fg.g * m + bg.g * (255 - m)) / 255,
   (fg.b * m + bg.b * (255 - m)) / 255,
   (fg.a * m + bg.a * (255 - m)) / 255⟩

/-- One-pixel over blend (models `Image.alpha_composite` as section 4.6 of
the design words it: out = fg times alpha plus bg times one minus alpha, per
band, byte scale). -/
def compositePixel (fg bg : Pixel) : Pixel :=
  let a := fg.a
  ⟨(fg.r * a + bg.r * (255 - a)) / 255,
   (fg.g * a + bg.g * (255 - a)) / 255,
   (fg.b * a + bg.b * (255 - a)) / 255,
   (fg.a * a + bg.a * (255 - a)) / 255⟩

/-- `temp_img = Image.new("RGBA", size, (0,0,0,0))` followed by
`temp_img.paste(watermark, (pos_x, pos_y), watermark)`: pixels of the canvas
covered by the watermark box are mask-blended over transparent, the rest
stay transparent; parts of the watermark outside the canvas are cropped by
construction. -/
def pasteAt (w h : ℕ) (wm : PImage) (pos : ℤ × ℤ) : PImage :=
  ⟨w, h, 4,
    (List.range (w * h)).map (fun i =>
      let x : ℤ := ((i % w : ℕ) : ℤ)
      let y : ℤ := ((i / w : ℕ) : ℤ)
      let dx := x - pos.1
      let dy := y - pos.2
      if 0 ≤ dx ∧ dx < (wm.width : ℤ) ∧ 0 ≤ dy ∧ dy < (wm.height : ℤ) then
        pasteMaskPixel (wm.px.getD (dy.toNat * wm.width + dx.toNat) transparentPixel)
          transparentPixel
      else transparentPixel)⟩

/-- `Image.alpha_composite(base_image, temp_img)` pixel by pixel. -/
def compositeImages (bg fg : PImage) : PImage :=
  ⟨bg.width, bg.height, 4, List.zipWith compositePixel fg.px bg.px⟩

/-- `np.array(result).astype(np.float32) / 255.0` for one pixel: 3 or 4
values depending on the mode. -/
def encodePixel (m : ℕ) (p : Pixel) : List ℚ :=
  if m = 3 then [(p.r : ℚ) / 255, (p.g : ℚ) / 255, (p.b : ℚ) / 255]
  else [(p.r : ℚ) / 255, (p.g : ℚ) / 255, (p.b : ℚ) / 255, (p.a : ℚ) / 255]

/-- The PIL-to-tensor conversion at the bottom of `apply_watermark`
(`unsqueeze(0)` puts the single image into a batch of one). -/
def encodeHostImage (img : PImage) : HostImage :=
  ⟨img.height, img.width, img.mode, img.px.flatMap (encodePixel img.mode)⟩

/-- `WatermarkNode.apply_watermark` with its fallible steps exposed: `none`
wherever the Python early-returns the original image or raises into the
`except` handler (empty batch, missing watermark file, watermark file that
does not decode, resize to a non-positive size, which PIL rejects). -/
def applyWatermarkCore (wm_file : WatermarkFile) (image : Tensor) (p : Params) :
    Option Tensor :=
  match image.batch with
  | [] => none
  | hi :: _ =>
    let base_image := decodeHostImage hi
    match wm_file with
    | .missing => none
    | .undecodable => none
    | .decodable wm0 =>
      let sz := resize_size base_image.width base_image.height p.scale wm0.width wm0.height
      if sz.1 ≤ 0 ∨ sz.2 ≤ 0 then none
      else
        let watermark := resizeImage wm0 sz.1.toNat sz.2.toNat
        let pos0 := calculate_position (base_image.width : ℤ) (base_image.height : ℤ)
          (watermark.width : ℤ) (watermark.height : ℤ)
          p.position p.margin_x p.margin_y p.offset_x p.offset_y
        let pos1 := ensure_watermark_fits (base_image.width : ℤ) (base_image.height : ℤ)
          (watermark.width : ℤ) (watermark.height : ℤ) pos0.1 pos0.2
        let baseRGBA := toRGBA base_image
        let wmFinal := applyOpacityImage p.opacity watermark
        let temp := pasteAt baseRGBA.width baseRGBA.height wmFinal pos1
        let result := compositeImages baseRGBA temp
        let result2 := if hi.channels = 3 then toRGB result else result
        some ⟨[encodeHostImage result2]⟩

/-- `WatermarkNode.apply_watermark`: the `try/except` boundary around the
core; every failure returns the original input tensor. -/
def apply_watermark (wm_file : WatermarkFile) (image : Tensor) (p : Params) : Tensor :=
  match applyWatermarkCore wm_file image p with
  | some out => out
  | none => image

/-- Truncation of an integer-valued rational is the integer itself. -/
theorem pyInt_intCast (n : ℤ) : pyInt (n : ℚ) = n := by
  simp [pyInt, Rat.num_intCast, Rat.den_intCast, Int.tdiv_one]

/-- Truncation of zero. -/
theorem pyInt_zero : pyInt 0 = 0 := by
  simp [pyInt, Int.zero_tdiv]

/-- The decode step keeps the width of the host buffer. -/
theorem decodeHostImage_width (hi : HostImage) : (decodeHostImage hi).width = hi.width :=
  rfl

/-- The decode step keeps the height of the host buffer. -/
theorem decodeHostImage_height (hi : HostImage) : (decodeHostImage hi).height = hi.height :=
  rfl

/-- The encode step reports the image mode as the channel count. -/
theorem encodeHostImage_channels (img : PImage) :
    (encodeHostImage img).channels = img.mode :=
  rfl

/-- The RGB conversion yields a 3-channel image. -/
theorem toRGB_mode (img : PImage) : (toRGB img).mode = 3 :=
  rfl

/-- Alpha compositing yields a 4-channel image. -/
theorem compositeImages_mode (bg fg : PImage) : (compositeImages bg fg).mode = 4 :=
  rfl

/-- C2: for every base size, watermark size, margins and offsets, the
position resolver returns exactly the anchor-table value of the
specification plus the offsets, with unknown anchor strings falling back to
`bottom_right`. -/
theorem C2_position_resolver (W H w h : ℤ) (position : String) (mx my ox oy : ℤ) :
    calculate_position W H w h position mx my ox oy =
      ((anchorBaseSpec W H w h mx my position).1 + ox,
       (anchorBaseSpec W H w h mx my position).2 + oy) := by
  by_cases h1 : position = "top_left"
  · simp [calculate_position, positionsTable, anchorBaseSpec, List.lookup, h1]
  by_cases h2 : position = "top_center"
  · simp [calculate_position, positionsTable, anchorBaseSpec, List.lookup, h1, h2]
  by_cases h3 : position = "top_right"
  · simp [calculate_position, positionsTable, anchorBaseSpec, List.lookup, h1, h2, h3]
  by_cases h4 : position = "center_left"
  · simp [calculate_position, positionsTable, anchorBaseSpec, List.lookup, h1, h2, h3, h4]
  by_cases h5 : position = "center"
  · simp [calculate_position, positionsTable, anchorBaseSpec, List.lookup, h1, h2, h3, h4, h5]
  by_cases h6 : position = "center_right"
  · simp [calculate_position, positionsTable, anchorBaseSpec, List.lookup,
      h1, h2, h3, h4, h5, h6]
  by_cases h7 : position = "bottom_left"
  · simp [calculate_position, positionsTable, anchorBaseSpec, List.lookup,
      h1, h2, h3, h4, h5, h6, h7]
  by_cases h8 : position = "bottom_center"
  · simp [calculate_position, positionsTable, anchorBaseSpec, List.lookup,
      h1, h2, h3, h4, h5, h6, h7, h8]
  by_cases h9 : position = "bottom_right"
  · simp [calculate_position, positionsTable, anchorBaseSpec, List.lookup,
      h1, h2, h3, h4, h5, h6, h7, h8, h9]
  · simp [calculate_position, positionsTable, anchorBaseSpec, List.lookup,
      h1, h2, h3, h4, h5, h6, h7, h8, h9,
      beq_eq_false_iff_ne.mpr h1, beq_eq_false_iff_ne.mpr h2,
      beq_eq_false_iff_ne.mpr h3, beq_eq_false_iff_ne.mpr h4,
      beq_eq_false_iff_ne.mpr h5, beq_eq_false_iff_ne.mpr h6,
      beq_eq_false_iff_ne.mpr h7, beq_eq_false_iff_ne.mpr h8,
      beq_eq_false_iff_ne.mpr h9]

/-- C3: the bounds clamp adjusts each axis independently by exactly the rule
of the specification (if the coordinate is negative set it to 0, else if the
box overruns the far edge set it to limit minus size), and it is a total
function: no rejection or error for oversized watermarks. -/
theorem C3_bounds_clamp (W H w h x y : ℤ) :
    ensure_watermark_fits W H w h x y =
      (clampAxisSpec W w x, clampAxisSpec H h y) := by
  simp [ensure_watermark_fits, clampAxisSpec]

/-- C4 counterexample: the clamp is not idempotent when the watermark is
wider than the base image. With base 100 by 100 and watermark 150 by 80, the
candidate position (0, 0) clamps to (-50, 0), which clamps again to (0, 0). -/
theorem C4_clamp_not_idempotent :
    ensure_watermark_fits 100 100 150 80
        (ensure_watermark_fits 100 100 150 80 0 0).1
        (ensure_watermark_fits 100 100 150 80 0 0).2 ≠
      ensure_watermark_fits 100 100 150 80 0 0 := by
  decide

/-- C4 amended: the clamp is idempotent for every input position provided the
watermark does not exceed the base image on either axis. -/
theorem C4_clamp_idempotent (W H w h x y : ℤ) (hw : w ≤ W) (hh : h ≤ H) :
    ensure_watermark_fits W H w h
        (ensure_watermark_fits W H w h x y).1
        (ensure_watermark_fits W H w h x y).2 =
      ensure_watermark_fits W H w h x y := by
  simp only [ensure_watermark_fits, Prod.mk.injEq]
  constructor <;> (split_ifs <;> omega)

/-- C4 amended, witness at base 1000 by 500, watermark 200 by 100, candidate
position (990, -3). -/
theorem C4_clamp_idempotent_witness :
    ensure_watermark_fits 1000 500 200 100
        (ensure_watermark_fits 1000 500 200 100 990 (-3)).1
        (ensure_watermark_fits 1000 500 200 100 990 (-3)).2 =
      ensure_watermark_fits 1000 500 200 100 990 (-3) :=
  C4_clamp_idempotent 1000 500 200 100 990 (-3) (by decide) (by decide)

/-- C5: whenever the watermark fits inside the base image, every clamped
position lies in the invariant range, and in particular the
resolved-then-clamped position of every anchor string (hence of each of the
9 named anchors) with margin 0 and offset 0 does. -/
theorem C5_clamp_invariant (W H w h : ℤ) (hw : w ≤ W) (hh : h ≤ H) :
    (∀ x y : ℤ,
      0 ≤ (ensure_watermark_fits W H w h x y).1 ∧
      (ensure_watermark_fits W H w h x y).1 ≤ W - w ∧
      0 ≤ (ensure_watermark_fits W H w h x y).2 ∧
      (ensure_watermark_fits W H w h x y).2 ≤ H - h) ∧
    ∀ anchor : String,
      0 ≤ (ensure_watermark_fits W H w h
        (calculate_position W H w h anchor 0 0 0 0).1
        (calculate_position W H w h anchor 0 0 0 0).2).1 ∧
      (ensure_watermark_fits W H w h
        (calculate_position W H w h anchor 0 0 0 0).1
        (calculate_position W H w h anchor 0 0 0 0).2).1 ≤ W - w ∧
      0 ≤ (ensure_watermark_fits W H w h
        (calculate_position W H w h anchor 0 0 0 0).1
        (calculate_position W H w h anchor 0 0 0 0).2).2 ∧
      (ensure_watermark_fits W H w h
        (calculate_position W H w h anchor 0 0 0 0).1
        (calculate_position W H w h anchor 0 0 0 0).2).2 ≤ H - h := by
  have hmain : ∀ x y : ℤ,
      0 ≤ (ensure_watermark_fits W H w h x y).1 ∧
      (ensure_watermark_fits W H w h x y).1 ≤ W - w ∧
      0 ≤ (ensure_watermark_fits W H w h x y).2 ∧
      (ensure_watermark_fits W H w h x y).2 ≤ H - h := by
    intro x y
    simp only [ensure_watermark_fits]
    refine ⟨?_, ?_, ?_, ?_⟩ <;> (split_ifs <;> omega)
  exact ⟨hmain, fun anchor => hmain _ _⟩

/-- C5 witness at base 1000 by 500, watermark 200 by 100, with the
bottom_right anchor position. -/
theorem C5_clamp_invariant_witness :
    0 ≤ (ensure_watermark_fits 1000 500 200 100
      (calculate_position 1000 500 200 100 "bottom_right" 0 0 0 0).1
      (calculate_position 1000 500 200 100 "bottom_right" 0 0 0 0).2).1 ∧
    (ensure_watermark_fits 1000 500 200 100
      (calculate_position 1000 500 200 100 "bottom_right" 0 0 0 0).1
      (calculate_position 1000 500 200 100 "bottom_right" 0 0 0 0).2).1 ≤ 800 ∧
    0 ≤ (ensure_watermark_fits 1000 500 200 100
      (calculate_position 1000 500 200 100 "bottom_right" 0 0 0 0).1
      (calculate_position 1000 500 200 100 "bottom_right" 0 0 0 0).2).2 ∧
    (ensure_watermark_fits 1000 500 200 100
      (calculate_position 1000 500 200 100 "bottom_right" 0 0 0 0).1
      (calculate_position 1000 500 200 100 "bottom_right" 0 0 0 0).2).2 ≤ 400 :=
  (C5_clamp_invariant 1000 500 200 100 (by decide) (by decide)).2 "bottom_right"

/-- C10: the clamp is the identity on positions whose bounding box already
lies inside the base image. -/
theorem C10_clamp_identity (W H w h x y : ℤ)
    (hx0 : 0 ≤ x) (hxw : x + w ≤ W) (hy0 : 0 ≤ y) (hyh : y + h ≤ H) :
    ensure_watermark_fits W H w h x y = (x, y) := by
  simp only [ensure_watermark_fits, Prod.mk.injEq]
  constructor <;> (split_ifs <;> omega)

/-- C10 witness: position (780, 380) for a 200 by 100 watermark on a
1000 by 500 base is returned unchanged. -/
theorem C10_clamp_identity_witness :
    ensure_watermark_fits 1000 500 200 100 780 380 = (780, 380) :=
  C10_clamp_identity 1000 500 200 100 780 380
    (by decide) (by decide) (by decide) (by decide)

/-- C6 counterexample: the source truncates with `int` where the
specification says `round`. On a 2 by 2 base with scale 3/4 and a 4 by 2
watermark the source computes target long edge int(1.5) = 1 (and derived
edge 0), while the specification rounds 1.5 to 2 (and derived edge 1). -/
theorem C6_resize_round_counterexample :
    resize_size 2 2 (3/4) 4 2 ≠ resize_size_spec 2 2 (3/4) 4 2 := by
  have hws : watermark_size 2 2 (3/4) = 1 := by
    norm_num [watermark_size, pyInt]
    decide
  have h1 : resize_size 2 2 (3/4) 4 2 = (1, 0) := by
    simp only [resize_size, hws]
    norm_num [pyInt]
    decide
  have hL : round (((min 2 2 : ℕ) : ℚ) * (3/4)) = 2 := by
    norm_num [round_eq]
  have h2 : resize_size_spec 2 2 (3/4) 4 2 = (2, 1) := by
    simp only [resize_size_spec, hL]
    norm_num [round_eq]
  rw [h1, h2]
  decide

/-- C6 amended: the resize target matches the specification formula once
`round` is replaced by Python `int` truncation (the branch written with the
non-strict comparison width at least height agrees with the strict source
branch, because both edges coincide for a square watermark). -/
theorem C6_resize_trunc (W H : ℕ) (scale : ℚ) (w h : ℕ) (hw : 1 ≤ w) (hh : 1 ≤ h) :
    resize_size W H scale w h = resize_size_spec_trunc W H scale w h := by
  simp only [resize_size, resize_size_spec_trunc]
  rcases lt_trichotomy w h with hlt | heq | hgt
  · have h1 : ¬(w > h) := by omega
    have h2 : ¬(w ≥ h) := by omega
    simp [h1, h2]
  · subst heq
    have h1 : ¬(w > w) := by omega
    have h2 : w ≥ w := le_refl w
    have hq : ((w : ℚ) / (w : ℚ)) = 1 := div_self (Nat.cast_ne_zero.mpr (by omega))
    simp [h1, h2, hq, pyInt_intCast]
  · have h1 : w > h := hgt
    have h2 : w ≥ h := le_of_lt hgt
    simp [h1, h2]

/-- C6 amended, witness at base 2 by 2, scale 3/4, watermark 4 by 2. -/
theorem C6_resize_trunc_witness :
    resize_size 2 2 (3/4) 4 2 = resize_size_spec_trunc 2 2 (3/4) 4 2 :=
  C6_resize_trunc 2 2 (3/4) 4 2 (by decide) (by decide)

/-- C7 counterexample: nothing clamps the computed resize target to a
minimum of 1 pixel. On a 10 by 10 base with the minimum scale 1/100 the
target long edge truncates to 0 and both computed dimensions are 0, not at
least 1 as the claim requires. -/
theorem C7_no_min_clamp_counterexample :
    watermark_size 10 10 (1/100) = 0 ∧
    resize_size 10 10 (1/100) 4 2 = (0, 0) ∧
    ¬(1 ≤ (resize_size 10 10 (1/100) 4 2).1 ∧
      1 ≤ (resize_size 10 10 (1/100) 4 2).2) := by
  have hws : watermark_size 10 10 (1/100) = 0 := by
    norm_num [watermark_size, pyInt]
    decide
  have h1 : resize_size 10 10 (1/100) 4 2 = (0, 0) := by
    simp only [resize_size, hws]
    norm_num [pyInt_zero]
  exact ⟨hws, h1, by rw [h1]; decide⟩

/-- C7 amended: the computed resize dimensions are not clamped to a minimum
of 1 pixel: whenever the target long edge truncates to 0 both computed
dimensions are 0, the resize step fails (PIL rejects a non-positive size),
and the boundary handler returns the original input unchanged, so no empty
watermark is ever composited. -/
theorem C7_degenerate_resize (W H w h : ℕ) (scale : ℚ)
    (hws : watermark_size W H scale = 0) :
    resize_size W H scale w h = (0, 0) ∧
    ∀ (hi : HostImage) (rest : List HostImage) (wm0 : PImage) (p : Params),
      hi.width = W → hi.height = H → wm0.width = w → wm0.height = h →
      p.scale = scale →
      apply_watermark (.decodable wm0) ⟨hi :: rest⟩ p = ⟨hi :: rest⟩ := by
  have hrs : resize_size W H scale w h = (0, 0) := by
    simp only [resize_size, hws]
    split_ifs <;> simp [pyInt_zero]
  refine ⟨hrs, ?_⟩
  intro hi rest wm0 p hW hH hw0 hh0 hs
  have hcore : applyWatermarkCore (.decodable wm0) ⟨hi :: rest⟩ p = none := by
    simp only [applyWatermarkCore, decodeHostImage_width, decodeHostImage_height,
      hW, hH, hw0, hh0, hs, hrs]
    simp
  simp [apply_watermark, hcore]

/-- C7 amended, witness: a 10 by 10 base at scale 1/100 with a 4 by 2
watermark resizes to (0, 0) and the node returns the input unchanged. -/
theorem C7_degenerate_resize_witness :
    resize_size 10 10 (1/100) 4 2 = (0, 0) ∧
    apply_watermark (.decodable ⟨4, 2, 4, []⟩) ⟨[⟨10, 10, 3, []⟩]⟩
        ⟨"bottom_right", 4/5, 1/100, 20, 20, 0, 0⟩ =
      ⟨[⟨10, 10, 3, []⟩]⟩ := by
  have h := C7_degenerate_resize 10 10 4 2 (1/100)
    (by norm_num [watermark_size, pyInt]; decide)
  exact ⟨h.1, h.2 ⟨10, 10, 3, []⟩ [] ⟨4, 2, 4, []⟩
    ⟨"bottom_right", 4/5, 1/100, 20, 20, 0, 0⟩ rfl rfl rfl rfl rfl⟩

/-- C8: with opacity below 1 the opacity step replaces every alpha by
int(alpha times opacity) and leaves the RGB bands unchanged; opacity 1
leaves the pixels untouched; and a watermark pixel at opacity 0 pastes and
composites to exactly the underlying base pixel, so the output image equals
the input image. -/
theorem C8_opacity_alpha (o : ℚ) (px0 px1 : List Pixel) (fg bg : Pixel) (ho : o < 1) :
    apply_opacity o px0 =
      px0.map (fun q => ⟨q.r, q.g, q.b, (pyInt ((q.a : ℚ) * o)).toNat⟩) ∧
    apply_opacity 1 px1 = px1 ∧
    compositePixel (pasteMaskPixel (applyOpacityPixel 0 fg) transparentPixel) bg = bg := by
  refine ⟨?_, ?_, ?_⟩
  · rw [apply_opacity, if_pos ho]
    rfl
  · rw [apply_opacity, if_neg (lt_irrefl 1)]
  · have h0 : applyOpacityPixel 0 fg = ⟨fg.r, fg.g, fg.b, 0⟩ := by
      simp [applyOpacityPixel, pyInt_zero]
    rw [h0]
    have h255 : ∀ n : ℕ, n * 255 / 255 = n := fun n => Nat.mul_div_cancel n (by norm_num)
    simp [pasteMaskPixel, transparentPixel, compositePixel, h255]

/-- C8 witness at opacity 1/2, a one-pixel watermark, and concrete pixels. -/
theorem C8_opacity_alpha_witness :
    apply_opacity (1/2) [⟨10, 20, 30, 200⟩] =
      [(⟨10, 20, 30, 200⟩ : Pixel)].map
        (fun q => ⟨q.r, q.g, q.b, (pyInt ((q.a : ℚ) * (1/2))).toNat⟩) ∧
    apply_opacity 1 [⟨1, 2, 3, 4⟩] = [⟨1, 2, 3, 4⟩] ∧
    compositePixel (pasteMaskPixel (applyOpacityPixel 0 ⟨7, 8, 9, 250⟩) transparentPixel)
        ⟨11, 12, 13, 255⟩ = ⟨11, 12, 13, 255⟩ :=
  C8_opacity_alpha (1/2) [⟨10, 20, 30, 200⟩] [⟨1, 2, 3, 4⟩] ⟨7, 8, 9, 250⟩
    ⟨11, 12, 13, 255⟩ (by norm_num)

/-- C9: on the success path the node processes exactly the first image of
the batch (the other batch elements do not influence the result), and
returns a batch of exactly one image whose channel count equals the channel
count of the first input image, for 3-channel and 4-channel inputs. -/
theorem C9_output_shape (wm0 : PImage) (t : Tensor) (p : Params)
    (hi : HostImage) (rest : List HostImage)
    (hb : t.batch = hi :: rest)
    (hc : hi.channels = 3 ∨ hi.channels = 4)
    (hs1 : 0 < (resize_size hi.width hi.height p.scale wm0.width wm0.height).1)
    (hs2 : 0 < (resize_size hi.width hi.height p.scale wm0.width wm0.height).2) :
    (apply_watermark (.decodable wm0) t p).batch.length = 1 ∧
    (∀ o ∈ (apply_watermark (.decodable wm0) t p).batch, o.channels = hi.channels) ∧
    apply_watermark (.decodable wm0) t p = apply_watermark (.decodable wm0) ⟨[hi]⟩ p := by
  obtain ⟨batch⟩ := t
  simp only [Tensor.mk.injEq] at hb
  subst hb
  have hno : ¬((resize_size hi.width hi.height p.scale wm0.width wm0.height).1 ≤ 0 ∨
      (resize_size hi.width hi.height p.scale wm0.width wm0.height).2 ≤ 0) := by omega
  refine ⟨?_, ?_, ?_⟩
  · simp only [apply_watermark, applyWatermarkCore, decodeHostImage_width,
      decodeHostImage_height, hno, if_false]
    simp
  · simp only [apply_watermark, applyWatermarkCore, decodeHostImage_width,
      decodeHostImage_height, hno, if_false]
    rcases hc with hc3 | hc4
    · simp [hc3, encodeHostImage_channels, toRGB_mode]
    · have hne : hi.channels ≠ 3 := by omega
      simp [hne, hc4, encodeHostImage_channels, compositeImages_mode]
  · simp only [apply_watermark, applyWatermarkCore, decodeHostImage_width,
      decodeHostImage_height, hno, if_false]

/-- C9 witness: a 2 by 2 3-channel base with a 4 by 2 watermark at scale 1. -/
theorem C9_output_shape_witness :
    (apply_watermark (.decodable ⟨4, 2, 4, []⟩) (Tensor.mk [HostImage.mk 2 2 3 []])
        ⟨"center", 4/5, 1, 20, 20, 0, 0⟩).batch.length = 1 ∧
    (∀ o ∈ (apply_watermark (.decodable ⟨4, 2, 4, []⟩) (Tensor.mk [HostImage.mk 2 2 3 []])
        ⟨"center", 4/5, 1, 20, 20, 0, 0⟩).batch,
      o.channels = (HostImage.mk 2 2 3 []).channels) ∧
    apply_watermark (.decodable ⟨4, 2, 4, []⟩) (Tensor.mk [HostImage.mk 2 2 3 []])
        ⟨"center", 4/5, 1, 20, 20, 0, 0⟩ =
      apply_watermark (.decodable ⟨4, 2, 4, []⟩) ⟨[HostImage.mk 2 2 3 []]⟩
        ⟨"center", 4/5, 1, 20, 20, 0, 0⟩ :=
  C9_output_shape ⟨4, 2, 4, []⟩ (Tensor.mk [HostImage.mk 2 2 3 []])
    ⟨"center", 4/5, 1, 20, 20, 0, 0⟩ (HostImage.mk 2 2 3 []) [] rfl (Or.inl rfl)
    (by norm_num [resize_size, watermark_size, pyInt])
    (by norm_num [resize_size, watermark_size, pyInt])

/-- C1: every failure kind is absorbed at the operation boundary: a missing
or undecodable watermark file returns the original tensor unchanged, any
failing core step returns the original tensor unchanged, and the return
value is always a tensor, never a failure signal: either the original input
or the successful composite. -/
theorem C1_fail_soft (wm_file : WatermarkFile) (t : Tensor) (p : Params) :
    ((wm_file = .missing ∨ wm_file = .undecodable) → apply_watermark wm_file t p = t) ∧
    (applyWatermarkCore wm_file t p = none → apply_watermark wm_file t p = t) ∧
    (apply_watermark wm_file t p = t ∨
      ∃ out, applyWatermarkCore wm_file t p = some out ∧
        apply_watermark wm_file t p = out) := by
  refine ⟨?_, ?_, ?_⟩
  · rintro (rfl | rfl) <;>
      · obtain ⟨batch⟩ := t
        rcases batch with _ | ⟨hi, rest⟩ <;> rfl
  · intro hnone
    simp [apply_watermark, hnone]
  · rcases hcore : applyWatermarkCore wm_file t p with _ | out
    · exact Or.inl (by simp [apply_watermark, hcore])
    · exact Or.inr ⟨out, rfl, by simp [apply_watermark, hcore]⟩

/-- C1 witness: a missing watermark file on a one-pixel RGB batch returns the
input unchanged. -/
theorem C1_fail_soft_witness :
    (WatermarkFile.missing = WatermarkFile.missing ∨
      WatermarkFile.missing = WatermarkFile.undecodable) ∧
    apply_watermark WatermarkFile.missing (Tensor.mk [HostImage.mk 1 1 3 [0, 0, 0]])
        ⟨"center", 4/5, 1/10, 20, 20, 0, 0⟩ =
      Tensor.mk [HostImage.mk 1 1 3 [0, 0, 0]] :=
  ⟨Or.inl rfl,
    (C1_fail_soft WatermarkFile.missing (Tensor.mk [HostImage.mk 1 1 3 [0, 0, 0]])
      ⟨"center", 4/5, 1/10, 20, 20, 0, 0⟩).1 (Or.inl rfl)⟩

end WatermarkNode
